import Mathlib

/-!
Shallow embedding of `src/launch/basic_state_estimator_launch.py`.

The Python file builds a ROS 2 `LaunchDescription`: five
`DeclareLaunchArgument` entries followed by one `Node` record whose
namespace and parameter values are late-bound `LaunchConfiguration`
references. We embed the value records and the builder function directly
from the source, and model the launch runner's substitution resolution
(external to this repository) from the spec.
-/

/-- A value appearing in the launch description: either a literal string
fixed at build time, or a `LaunchConfiguration` reference resolved by the
launch runner at launch time (late-bound). -/
inductive LaunchValue where
  | lit (s : String)
  | launchConfiguration (argName : String)
  deriving DecidableEq, Repr

/-- The `Node` record of `launch_ros.actions.Node`, restricted to the
fields the source file sets. `parameters` in the source is a list of
single-key dictionaries; each is embedded as one key/value pair. -/
structure NodeRecord where
  package : String
  executable : String
  name : String
  «namespace» : LaunchValue
  parameters : List (String × LaunchValue)
  output : String
  emulate_tty : Bool
  deriving DecidableEq, Repr

/-- An entry of a launch description: an argument declaration
(`DeclareLaunchArgument(name, default_value=...)`) or a node record. -/
inductive LaunchEntry where
  | declareLaunchArgument (name : String) (default_value : String)
  | node (record : NodeRecord)
  deriving DecidableEq, Repr

/-- `launch.LaunchDescription`: an ordered sequence of entries. -/
structure LaunchDescription where
  entries : List LaunchEntry
  deriving DecidableEq, Repr

/-- Embedding of `generate_launch_description` from
`src/launch/basic_state_estimator_launch.py`. The Python function takes
no argument; we embed it as a function on `Unit` so that properties over
"every invocation" can be stated. -/
def generate_launch_description : Unit → LaunchDescription := fun _ =>
  ⟨[ LaunchEntry.declareLaunchArgument "drone_id" "drone0",
     LaunchEntry.declareLaunchArgument "odom_only" "False",
     LaunchEntry.declareLaunchArgument "ground_truth" "False",
     LaunchEntry.declareLaunchArgument "sensor_fusion" "False",
     LaunchEntry.declareLaunchArgument "base_frame" "base_link",
     LaunchEntry.node
       { package := "basic_state_estimator"
         executable := "basic_state_estimator_node"
         name := "basic_state_estimator"
         «namespace» := LaunchValue.launchConfiguration "drone_id"
         parameters :=
           [ ("odom_only", LaunchValue.launchConfiguration "odom_only"),
             ("ground_truth", LaunchValue.launchConfiguration "ground_truth"),
             ("sensor_fusion", LaunchValue.launchConfiguration "sensor_fusion"),
             ("base_frame", LaunchValue.launchConfiguration "base_frame") ]
         output := "screen"
         emulate_tty := true } ]⟩

/-- The description returned by the builder. -/
def theDescription : LaunchDescription := generate_launch_description ()

/-- The entry list of the returned description. -/
def theEntries : List LaunchEntry := theDescription.entries

/-- Is the entry an argument declaration? -/
def isArgDeclaration : LaunchEntry → Bool
  | LaunchEntry.declareLaunchArgument _ _ => true
  | LaunchEntry.node _ => false

/-- Is the entry a node record? -/
def isNodeEntry : LaunchEntry → Bool
  | LaunchEntry.declareLaunchArgument _ _ => false
  | LaunchEntry.node _ => true

/-- The declared argument names, in order of declaration. -/
def declaredArgNames (entries : List LaunchEntry) : List String :=
  entries.filterMap fun e =>
    match e with
    | LaunchEntry.declareLaunchArgument n _ => some n
    | LaunchEntry.node _ => none

/-- The declared (name, default value) pairs, in order of declaration. -/
def declaredArgs (entries : List LaunchEntry) : List (String × String) :=
  entries.filterMap fun e =>
    match e with
    | LaunchEntry.declareLaunchArgument n d => some (n, d)
    | LaunchEntry.node _ => none

/-- The node records of a description, in order. -/
def nodeRecords (entries : List LaunchEntry) : List NodeRecord :=
  entries.filterMap fun e =>
    match e with
    | LaunchEntry.declareLaunchArgument _ _ => none
    | LaunchEntry.node r => some r

/-- Argument names referenced by a launch value (empty for a literal). -/
def valueRefs : LaunchValue → List String
  | LaunchValue.lit _ => []
  | LaunchValue.launchConfiguration a => [a]

/-- Argument names referenced by the late-bound values of a node record:
its namespace reference and the value of each parameter entry. -/
def nodeRefs (r : NodeRecord) : List String :=
  valueRefs r.«namespace» ++ (r.parameters.map Prod.snd).flatMap valueRefs

/-- All argument names referenced by late-bound values in a description. -/
def referencedArgNames (entries : List LaunchEntry) : List String :=
  (nodeRecords entries).flatMap nodeRefs

/-- Modelled from the spec: the launch runner (not part of this
repository) resolves an argument name to its declared default when the
invoking environment supplies no override. Returns the default of the
first declaration with that name, if any. -/
def declaredDefault (entries : List LaunchEntry) (arg : String) : Option String :=
  match entries with
  | [] => none
  | LaunchEntry.declareLaunchArgument n d :: rest =>
      if n = arg then some d else declaredDefault rest arg
  | LaunchEntry.node _ :: rest => declaredDefault rest arg

/-- Modelled from the spec: the launch runner resolves an argument at
launch time, an external command-line override taking precedence over the
declared default. `overrides` maps argument names to supplied override
values. -/
def resolveArg (entries : List LaunchEntry) (overrides : String → Option String)
    (arg : String) : Option String :=
  match overrides arg with
  | some v => some v
  | none => declaredDefault entries arg

/-- Modelled from the spec: the launch runner resolves a launch value at
launch time; a literal resolves to itself, a `LaunchConfiguration`
reference resolves to the referenced argument's resolved value. -/
def resolveValue (entries : List LaunchEntry) (overrides : String → Option String) :
    LaunchValue → Option String
  | LaunchValue.lit s => some s
  | LaunchValue.launchConfiguration a => resolveArg entries overrides a

/-- State-passing embedding of the builder for effect reasoning: the
Python function body is a single `return` of a freshly constructed value
with no assignment, I/O, or process-spawning statement, so the threaded
world state passes through unchanged. -/
structure World where
  startedProcesses : List String
  externalState : List (String × String)
  deriving DecidableEq, Repr

/-- The builder as a state-passing function on the world. -/
def generate_launch_description_stateful (w : World) : LaunchDescription × World :=
  (generate_launch_description (), w)

/-- C1: every invocation returns exactly five argument declarations,
named drone_id, odom_only, ground_truth, sensor_fusion, base_frame in
that order, each exactly once, followed by exactly one node record. -/
theorem C1_shape_five_args_then_one_node :
    theEntries.length = 6 ∧
    (theEntries.take 5).all isArgDeclaration = true ∧
    declaredArgNames theEntries =
      ["drone_id", "odom_only", "ground_truth", "sensor_fusion", "base_frame"] ∧
    (theEntries.drop 5).map isNodeEntry = [true] := by
  decide

/-- C2: the node record's parameters are exactly four single-key
entries keyed odom_only, ground_truth, sensor_fusion, base_frame, each
value a late-bound reference to the same-named launch argument, so under
any set of overrides each entry resolves to that argument's resolved
value; in particular overriding ground_truth to "True" makes the
ground_truth entry resolve to "True". -/
theorem C2_parameters_late_bound :
    (nodeRecords theEntries).map (fun r => r.parameters) =
      [[ ("odom_only", LaunchValue.launchConfiguration "odom_only"),
         ("ground_truth", LaunchValue.launchConfiguration "ground_truth"),
         ("sensor_fusion", LaunchValue.launchConfiguration "sensor_fusion"),
         ("base_frame", LaunchValue.launchConfiguration "base_frame") ]] ∧
    (∀ o : String → Option String,
      (nodeRecords theEntries).map
          (fun r => r.parameters.map (fun p => resolveValue theEntries o p.2)) =
        (nodeRecords theEntries).map
          (fun r => r.parameters.map (fun p => resolveArg theEntries o p.1))) ∧
    resolveValue theEntries
        (fun n => if n = "ground_truth" then some "True" else none)
        (LaunchValue.launchConfiguration "ground_truth") = some "True" := by
  refine ⟨by decide, fun o => rfl, by decide⟩

/-- C3: the node record has package "basic_state_estimator", executable
"basic_state_estimator_node", instance name "basic_state_estimator",
output "screen", and emulate_tty true; these are build-time literals of
the description returned by every invocation, independent of overrides. -/
theorem C3_node_fixed_fields :
    (∀ u : Unit, nodeRecords (generate_launch_description u).entries =
      nodeRecords theEntries) ∧
    (nodeRecords theEntries).map
        (fun r => (r.package, r.executable, r.name, r.output, r.emulate_tty)) =
      [("basic_state_estimator", "basic_state_estimator_node",
        "basic_state_estimator", "screen", true)] := by
  exact ⟨fun _ => rfl, by decide⟩

/-- C4: the five declared arguments carry exactly the literal defaults
drone_id→"drone0", odom_only→"False", ground_truth→"False",
sensor_fusion→"False", base_frame→"base_link". -/
theorem C4_literal_defaults :
    declaredArgs theEntries =
      [ ("drone_id", "drone0"), ("odom_only", "False"),
        ("ground_truth", "False"), ("sensor_fusion", "False"),
        ("base_frame", "base_link") ] := by
  decide

/-- C5: the node record's namespace is not a build-time literal but a
late-bound reference to the drone_id argument, so under any overrides it
resolves to whatever drone_id resolves to at launch time. -/
theorem C5_namespace_late_bound :
    (nodeRecords theEntries).map (fun r => r.«namespace») =
      [LaunchValue.launchConfiguration "drone_id"] ∧
    (∀ o : String → Option String,
      (nodeRecords theEntries).map
          (fun r => resolveValue theEntries o r.«namespace») =
        [resolveArg theEntries o "drone_id"]) := by
  exact ⟨by decide, fun o => rfl⟩

/-- C6: every argument name referenced by a late-bound value in the
returned description (the namespace reference and each parameter value)
is among the argument names declared in that same description. -/
theorem C6_referenced_args_are_declared :
    (referencedArgNames theEntries).all
      (fun a => (declaredArgNames theEntries).contains a) = true := by
  decide

/-- C7: the builder is deterministic: it takes no input and reads no
external state, so any two invocations yield structurally identical
descriptions. -/
theorem C7_deterministic :
    ∀ u₁ u₂ : Unit,
      generate_launch_description u₁ = generate_launch_description u₂ :=
  fun _ _ => rfl

/-- C8: the builder is total on its (empty-argument) input domain and
always returns the description, raising no error and performing no
validation: it is embedded as a total function whose result on every
invocation equals the returned description. -/
theorem C8_total_no_error :
    ∀ u : Unit, generate_launch_description u = theDescription :=
  fun _ => rfl

/-- C9: the builder has no side effects: in the state-passing embedding
it returns the constructed description and leaves the world — including
the set of started processes and all external state — unchanged. -/
theorem C9_no_side_effects :
    ∀ w : World,
      (generate_launch_description_stateful w).2 = w ∧
      (generate_launch_description_stateful w).2.startedProcesses =
        w.startedProcesses ∧
      (generate_launch_description_stateful w).1 =
        generate_launch_description () :=
  fun _ => ⟨rfl, rfl, rfl⟩

/-- C10: the node record's parameter keys appear in the fixed order
odom_only, ground_truth, sensor_fusion, base_frame, and drone_id never
appears as a parameter key. -/
theorem C10_parameter_key_order :
    (nodeRecords theEntries).map (fun r => r.parameters.map Prod.fst) =
      [["odom_only", "ground_truth", "sensor_fusion", "base_frame"]] ∧
    (nodeRecords theEntries).all
      (fun r => !(r.parameters.map Prod.fst).contains "drone_id") = true := by
  exact ⟨by decide, by decide⟩
